import Mathlib

/-!
Verification of the ChatRoomNetworkProject server core.

A shallow embedding, in Lean 4, of the message codec (`common/messages.py`),
the authentication phase and session registration of
`ChatServer.handle_tcp_client`, the TCP/UDP broadcast fan-out, the
heartbeat/liveness sweep (`server/server.py`), the legacy room broadcast
(`server.py`), and the file-backed credential store (`auth_manager.py`).

Conventions used throughout:
- socket handles are modelled as `Nat` (each accepted connection gets a
  distinct handle; Python dict keys are socket objects);
- Python dicts are modelled as association lists with insertion-order
  semantics (`ainsert` replaces in place or appends, matching `d[k] = v`);
- time is modelled as `Nat` seconds;
- whether a `send` on a given handle succeeds is supplied by an
  environment function `canSend : Nat → Bool` (a failing send raises in
  Python; here it is recorded as a failed `SendAttempt`).
-/

namespace ChatRoom

/-! Association-list model of Python dicts. -/

/-- Python `d.get(k)` / `k in d` on a dict, modelled over an association
list kept in insertion order. -/
def alookup {α β : Type} [DecidableEq α] : List (α × β) → α → Option β
  | [], _ => none
  | (k, v) :: rest, a => if k = a then some v else alookup rest a

/-- Python `d[k] = v` on a dict: replace the value in place if the key is
present, otherwise append (insertion order preserved). -/
def ainsert {α β : Type} [DecidableEq α] : List (α × β) → α → β → List (α × β)
  | [], a, b => [(a, b)]
  | (k, v) :: rest, a, b =>
    if k = a then (k, b) :: rest else (k, v) :: ainsert rest a b

/-- Python `del d[k]` on a dict: drop the (unique) entry with key `k`. -/
def aremove {α β : Type} [DecidableEq α] : List (α × β) → α → List (α × β)
  | [], _ => []
  | (k, v) :: rest, a =>
    if k = a then rest else (k, v) :: aremove rest a

/-! Wire protocol codec (`common/messages.py`). -/

/-- The dictionary produced by `format_message` / consumed by
`serialize_message`: the three standard fields `type`, `sender`,
`content` (extra kwargs are never used on the wire paths modelled here). -/
structure Message where
  type : String
  sender : String
  content : String
deriving Repr, DecidableEq

/-- Python's `s.split(':', maxsplit)` over the character list of `s`:
at most `maxsplit` splits are performed, the remainder (colons included)
stays in the last part.  `acc` is the reversed accumulator of the part
being built. -/
def splitColon : Nat → List Char → List Char → List (List Char)
  | _, acc, [] => [acc.reverse]
  | 0, acc, c :: cs => splitColon 0 (c :: acc) cs
  | n + 1, acc, c :: cs =>
    if c = ':' then acc.reverse :: splitColon n [] cs
    else splitColon (n + 1) (c :: acc) cs

/-- The function `parse_message` (`common/messages.py`, lines 27–38): split on `':'`
with `maxsplit=3`; if at least three parts result, take
`type = parts[0]`, `sender = parts[1]`, `content = parts[2]` — any
fourth part (`parts[3]`) is silently dropped.  Fewer than three parts
yield `None`. -/
def parse_message (s : String) : Option Message :=
  match splitColon 3 [] s.data with
  | t :: sd :: c :: _ => some ⟨String.mk t, String.mk sd, String.mk c⟩
  | _ => none

/-- The function `serialize_message` (`common/messages.py`, lines 40–45):
`f"{type}:{sender}:{content}"`.  The `KeyError → None` branch cannot
fire in this typed model, since all three fields are always present. -/
def serialize_message (m : Message) : String :=
  m.type ++ ":" ++ m.sender ++ ":" ++ m.content

/-! Substring helpers: Python `in` and `split(sep)[0]`. -/

/-- Tests whether `pat` occurs at the start of the list (Python `s.startswith`). -/
def leadsWith : List Char → List Char → Bool
  | [], _ => true
  | _ :: _, [] => false
  | p :: ps, c :: cs => (p = c) && leadsWith ps cs

/-- Python's `pat in s` substring test. -/
def hasSubstr (pat : List Char) : List Char → Bool
  | [] => leadsWith pat []
  | c :: cs => leadsWith pat (c :: cs) || hasSubstr pat cs

/-- Python's `s.split(sep)[0]` for non-empty `sep`: everything before the
first occurrence of `sep`, or all of `s` when `sep` does not occur. -/
def takeBefore (pat : List Char) : List Char → List Char
  | [] => []
  | c :: cs => if leadsWith pat (c :: cs) then [] else c :: takeBefore pat cs

/-! Server state (`ChatServer.__init__`, `server/server.py`). -/

/-- One value of the `tcp_clients` dict:
`{"username": ..., "address": ..., "last_active": ...}`. -/
structure ClientData where
  username : String
  address : Nat
  last_active : Nat
deriving Repr, DecidableEq

/-- The mutable server state touched by the code under verification:
`tcp_clients` (socket-handle → client data), `udp_client_addresses`
(username → UDP address), `user_db["users"]` (username → password), and
the `network_stats["bytes_sent"]` counter updated by the broadcasts. -/
structure ServerState where
  tcp_clients : List (Nat × ClientData)
  udp_client_addresses : List (String × Nat)
  user_db : List (String × String)
  bytes_sent : Nat
deriving Repr, DecidableEq

/-! Authentication phase (`handle_tcp_client`, `server/server.py` lines 183–262). -/

/-- One observed receive on the connection during the auth phase:
a data frame, a zero-length read (`if not data: break`), or an expiry of
the 30-second `settimeout` (raises `socket.timeout`). -/
inductive AuthEvent where
  | frame (data : String)
  | empty
  | timeout
deriving Repr, DecidableEq

/-- The wire constant `"registration=true"` checked with Python `in`
against the decoded data. -/
def regFlag : List Char := "registration=true".data

/-- The separator `":registration=true"` used by
`message_str.split(":registration=true")[0]`. -/
def regFlagSep : List Char := ":registration=true".data

/-- An `AUTH_FAIL` frame from the server (`format_message(AUTH_FAIL,
"SERVER", reason)`). -/
def authFail (reason : String) : Message := ⟨"AUTH_FAIL", "SERVER", reason⟩

/-- The terminal failure frame sent when the auth loop exits without
success (`server/server.py` lines 239–242). -/
def finalAuthFail : Message := authFail "Authentication failed after multiple attempts"

/-- The `AUTH_SUCCESS` frame sent on successful authentication
(`server/server.py` lines 247–249). -/
def welcomeMsg (u : String) : Message := ⟨"AUTH_SUCCESS", "SERVER", "Welcome, " ++ u ++ "!"⟩

/-- Result of processing one received auth-phase frame: either the loop
continues (`cont incremented response` — an `AUTH_FAIL` was sent and
`auth_attempts` was incremented iff `incremented`), or authentication
succeeds with the given username and (possibly updated) user database. -/
inductive AuthStep where
  | cont (incremented : Bool) (response : Message)
  | success (username : String) (db : List (String × String))
deriving Repr, DecidableEq

/-- The body of one iteration of the auth loop on a received data frame
(`server/server.py` lines 196–237): detect the registration flag, parse
(stripping everything from `":registration=true"` on when the flag is
present), reject non-AUTH frames with attempts incremented; for
registration, an existing username sends `AUTH_FAIL` *without*
incrementing `auth_attempts`, a fresh username is inserted into
`user_db["users"]` and succeeds; for login, a matching stored password
succeeds, otherwise `AUTH_FAIL` with attempts incremented. -/
def authStepFrame (db : List (String × String)) (s : String) : AuthStep :=
  let isReg := hasSubstr regFlag s.data
  let toParse := if isReg then String.mk (takeBefore regFlagSep s.data) else s
  match parse_message toParse with
  | none => .cont true (authFail "Authentication required")
  | some m =>
    if m.type ≠ "AUTH" then .cont true (authFail "Authentication required")
    else if isReg then
      match alookup db m.sender with
      | some _ => .cont false (authFail "Username already exists")
      | none => .success m.sender (ainsert db m.sender m.content)
    else
      if alookup db m.sender = some m.content then .success m.sender db
      else .cont true (authFail "Invalid credentials")

/-- Terminal outcome of the authentication phase for one connection. -/
inductive AuthOutcome where
  | authenticated (username : String)
  | rejected
  | aborted
  | blocked
deriving Repr, DecidableEq

/-- Observable result of the authentication phase: outcome, resulting
user database, the frames sent to this client in order, the receive
events not consumed, and whether the connection was closed by this
phase. `blocked` is a model artifact meaning the supplied event list
was exhausted while the loop was still waiting on `recv`. -/
structure AuthPhase where
  outcome : AuthOutcome
  db : List (String × String)
  sent : List Message
  rest : List AuthEvent
  closed : Bool
deriving Repr, DecidableEq

/-- The auth loop `while not auth_success and auth_attempts < 3`
(`server/server.py` lines 189–244) together with its epilogue: once
`auth_attempts` reaches 3 (or a zero-length read breaks the loop) the
final `AUTH_FAIL` is sent and the socket is closed; a timeout raises
out of the loop to the handler's `finally`, which closes the socket
with nothing further sent; on success the `AUTH_SUCCESS` welcome is
sent and the connection stays open. -/
def authLoop : List AuthEvent → List (String × String) → Nat → AuthPhase
  | [], db, attempts =>
    if 3 ≤ attempts then ⟨.rejected, db, [finalAuthFail], [], true⟩
    else ⟨.blocked, db, [], [], false⟩
  | e :: rest, db, attempts =>
    if 3 ≤ attempts then ⟨.rejected, db, [finalAuthFail], e :: rest, true⟩
    else
      match e with
      | .timeout => ⟨.aborted, db, [], rest, true⟩
      | .empty => ⟨.rejected, db, [finalAuthFail], rest, true⟩
      | .frame s =>
        match authStepFrame db s with
        | .success u db' => ⟨.authenticated u, db', [welcomeMsg u], rest, false⟩
        | .cont inc resp =>
          let r := authLoop rest db (if inc then attempts + 1 else attempts)
          { r with sent := resp :: r.sent }

/-! TCP broadcast (`ChatServer.broadcast_message`, `server/server.py` lines 358–376). -/

/-- One attempted `client_socket.send(encoded_message)`: the target
handle, the payload, and whether the send succeeded (`ok = false`
models the `except` branch, which only logs). -/
structure SendAttempt where
  handle : Nat
  payload : String
  ok : Bool
deriving Repr, DecidableEq

/-- The `for client_socket in list(self.tcp_clients.keys())` loop inside
`broadcast_message`: skip the excluded handle, attempt a send of the
(once-encoded) payload to every other handle; a failure is recorded and
the loop continues with the remaining handles. -/
def sendAll (clients : List (Nat × ClientData)) (payload : String)
    (exclude : Option Nat) (canSend : Nat → Bool) : List SendAttempt :=
  match clients with
  | [] => []
  | (h, _) :: rest =>
    if some h = exclude then sendAll rest payload exclude canSend
    else ⟨h, payload, canSend h⟩ :: sendAll rest payload exclude canSend

/-- Bytes counted into `network_stats["bytes_sent"]`: payload length of
each successful send (string length stands in for the UTF-8 byte
count). -/
def sentBytes : List SendAttempt → Nat
  | [] => 0
  | a :: rest => (if a.ok then a.payload.length else 0) + sentBytes rest

/-- The method `ChatServer.broadcast_message(message, source=None, exclude=None)`:
serialize once, then under `self.lock` iterate the registered TCP
clients, skipping `exclude`, sending to each independently; send
failures are logged only.  The registry maps are untouched; only
`network_stats["bytes_sent"]` grows.  (The `if not message_str: return`
guard cannot fire here: `serialize_message` of a typed `Message` is
never empty or `None`.) -/
def broadcast_message (st : ServerState) (m : Message) (exclude : Option Nat)
    (canSend : Nat → Bool) : ServerState × List SendAttempt :=
  let attempts := sendAll st.tcp_clients (serialize_message m) exclude canSend
  ({ st with bytes_sent := st.bytes_sent + sentBytes attempts }, attempts)

/-- The method `broadcast_message` begins with `with self.lock:`.  `self.lock` is a
non-reentrant `threading.Lock`, so a caller that already holds it
blocks forever on this acquire: modelled as `none`. -/
def broadcast_message_locked (lockHeld : Bool) (st : ServerState) (m : Message)
    (exclude : Option Nat) (canSend : Nat → Bool) :
    Option (ServerState × List SendAttempt) :=
  if lockHeld then none else some (broadcast_message st m exclude canSend)

/-! Post-auth registration (`handle_tcp_client`, `server/server.py` lines 246–259). -/

/-- The JOIN notification broadcast after a successful authentication. -/
def joinMsg (u : String) : Message := ⟨"JOIN", "SERVER", u ++ " has joined the chat"⟩

/-- The authentication phase of `handle_tcp_client` followed by its
success epilogue: on `AUTHENTICATED`, insert the session into
`tcp_clients` (keyed by the connection's socket handle, unconditionally
— no registry-uniqueness check on the username) and broadcast the JOIN
notification excluding the new connection; otherwise the state is left
with only the `user_db` changes made during the phase.  Returns the new
state, the phase record, and the JOIN broadcast send attempts. -/
def handle_tcp_auth (st : ServerState) (handle : Nat) (address : Nat) (now : Nat)
    (events : List AuthEvent) (canSend : Nat → Bool) :
    ServerState × AuthPhase × List SendAttempt :=
  let r := authLoop events st.user_db 0
  match r.outcome with
  | .authenticated u =>
    let st1 := { st with user_db := r.db,
                         tcp_clients := ainsert st.tcp_clients handle ⟨u, address, now⟩ }
    let (st2, joins) := broadcast_message st1 (joinMsg u) (some handle) canSend
    (st2, r, joins)
  | _ => ({ st with user_db := r.db }, r, [])

/-! Liveness sweep (`ChatServer.heartbeat_check`, `server/server.py` lines 395–428). -/

/-- The LEAVE notification built for an evicted session. -/
def leaveTimeoutMsg (u : String) : Message :=
  ⟨"LEAVE", "SERVER", u ++ " has been disconnected (timeout)"⟩

/-- The unicast HEARTBEAT ping sent to a stale session. -/
def pingMsg : Message := ⟨"HEARTBEAT", "SERVER", "PING"⟩

/-- The constant `HEARTBEAT_INTERVAL` (`server/server.py` line 34). -/
def HEARTBEAT_INTERVAL : Nat := 10

/-- The eviction loop `for client_socket in inactive_clients` at the end
of a sweep, entered while `self.lock` is still held (`lockHeld`): each
eviction deletes the session from `tcp_clients`, closes its handle, and
calls `self.broadcast_message(leave_msg)` — which re-acquires the same
lock.  A blocked acquire returns `none` (the `try/except: pass` around
the body does not help: blocking is not an exception). -/
def evictLoop (lockHeld : Bool) (canSend : Nat → Bool) :
    List (Nat × ClientData) → ServerState → Option (ServerState × List SendAttempt)
  | [], st => some (st, [])
  | (h, d) :: rest, st =>
    let st1 := { st with tcp_clients := aremove st.tcp_clients h }
    match broadcast_message_locked lockHeld st1 (leaveTimeoutMsg d.username) none canSend with
    | none => none
    | some (st2, sends) =>
      match evictLoop lockHeld canSend rest st2 with
      | none => none
      | some (st3, sends') => some (st3, sends ++ sends')

/-- One sweep of `heartbeat_check` (the body of `with self.lock:`):
ping every session whose `last_active` is more than
`HEARTBEAT_INTERVAL * 3` seconds before `now`; sessions whose ping send
raises are collected into `inactive_clients` and then evicted by
`evictLoop` with the lock still held.  Returns the ping attempts and,
when the sweep completes, the final state with the LEAVE broadcast
sends; `none` means the sweep never completes (deadlock). -/
def heartbeat_check (st : ServerState) (now : Nat) (canSend : Nat → Bool) :
    List SendAttempt × Option (ServerState × List SendAttempt) :=
  let stale := st.tcp_clients.filter
    (fun p => decide (HEARTBEAT_INTERVAL * 3 < now - p.2.last_active))
  let pings := stale.map (fun p => (⟨p.1, serialize_message pingMsg, canSend p.1⟩ : SendAttempt))
  let inactive := stale.filter (fun p => !(canSend p.1))
  (pings, evictLoop true canSend inactive st)

/-! UDP typing path (`ChatServer.handle_udp_messages` and
`broadcast_udp_message`, `server/server.py` lines 325–394) -/

/-- One attempted `udp_socket.sendto`. -/
structure UdpSend where
  addr : Nat
  payload : String
  ok : Bool
deriving Repr, DecidableEq

/-- The method `ChatServer.broadcast_udp_message(message, exclude_addr=None)`:
iterate the values of `udp_client_addresses` in insertion order,
skipping `exclude_addr`, one datagram per recipient; failures are
logged and ignored. -/
def broadcast_udp_message (addrs : List (String × Nat)) (payload : String)
    (excludeAddr : Option Nat) (canSendUdp : Nat → Bool) : List UdpSend :=
  match addrs with
  | [] => []
  | (_, a) :: rest =>
    if some a = excludeAddr then broadcast_udp_message rest payload excludeAddr canSendUdp
    else ⟨a, payload, canSendUdp a⟩ :: broadcast_udp_message rest payload excludeAddr canSendUdp

/-- Processing of one received UDP datagram by `handle_udp_messages`:
parse; on failure ignore; on a TYPING message, set
`udp_client_addresses[message["sender"]] = addr` (insert or overwrite,
with no check of `tcp_clients` or `user_db`) and fan the datagram out
to every other registered UDP address; any other kind is ignored. -/
def handle_udp_datagram (st : ServerState) (data : String) (addr : Nat)
    (canSendUdp : Nat → Bool) : ServerState × List UdpSend :=
  match parse_message data with
  | none => (st, [])
  | some m =>
    if m.type = "TYPING" then
      let addrs := ainsert st.udp_client_addresses m.sender addr
      ({ st with udp_client_addresses := addrs },
       broadcast_udp_message addrs (serialize_message m) (some addr) canSendUdp)
    else (st, [])

/-! Legacy room broadcast (`Server.broadcast_message`, `server.py` lines 94–102). -/

/-- One member of a legacy `Server.Rooms[room]` list: the dict
`{'client_name': ..., 'client_socket': ..., 'room': ...}` with the
socket as a handle. -/
structure LegacyClient where
  client_name : String
  client_socket : Nat
  room : String
deriving Repr, DecidableEq

/-- Remove the first occurrence (Python `list.remove`). -/
def removeFirst : List LegacyClient → LegacyClient → List LegacyClient
  | [], _ => []
  | c :: rest, x => if c = x then rest else c :: removeFirst rest x

/-- The legacy `Server.broadcast_message` loop
`for client in Server.Rooms[room]` with the `except` branch
`Server.Rooms[room].remove(client)`: Python's list iterator is
index-based, so after a removal at the current position the following
element is skipped.  `i` is the iterator index; the function returns
the room list as it stands when the loop ends. -/
def legacyBroadcast (sender : String) (canSend : Nat → Bool) :
    List LegacyClient → Nat → List LegacyClient
  | cs, i =>
    if h : i < cs.length then
      let c := cs.get ⟨i, h⟩
      if c.client_name ≠ sender ∧ canSend c.client_socket = false then
        legacyBroadcast sender canSend (removeFirst cs c) (i + 1)
      else
        legacyBroadcast sender canSend cs (i + 1)
    else cs
termination_by cs i => cs.length - i
decreasing_by
  · have hle : ∀ (l : List LegacyClient) (x : LegacyClient),
        (removeFirst l x).length ≤ l.length := by
      intro l x
      induction l with
      | nil => simp [removeFirst]
      | cons a rest ih =>
        simp only [removeFirst]
        split
        · simp
        · simpa using Nat.succ_le_succ ih
    have := hle cs (cs.get ⟨i, h⟩)
    omega
  · omega

/-! File-backed credential store (`auth_manager.py`). -/

/-- The function `save_credentials(username, password)` (`auth_manager.py` lines
3–7): append the line `f"{username}:{password}"` to the credentials
file (modelled as its list of stripped lines) and return `True` —
unconditionally, with no existence check. -/
def save_credentials (file : List String) (u p : String) : Bool × List String :=
  (true, file ++ [u ++ ":" ++ p])

/-- Full split on `':'` (Python `line.split(":")` with no maxsplit),
used by `check_credentials`. -/
def splitAllColon (s : List Char) : List (List Char) :=
  splitColon s.length [] s

/-- The function `check_credentials(username, password)` (`auth_manager.py` lines
9–20): scan the stored lines; a line that does not split into exactly
two fields makes the tuple unpacking raise `ValueError`, which is not
caught (`none`); otherwise return whether some line matches both
fields.  A missing file is the empty line list. -/
def check_credentials (file : List String) (u p : String) : Option Bool :=
  match file with
  | [] => some false
  | line :: rest =>
    match splitAllColon line.data with
    | [su, sp] =>
      if String.mk su = u ∧ String.mk sp = p then some true
      else check_credentials rest u p
    | _ => none

/-! Observation helpers used only to state properties of the store. -/

/-- The username field of a stored credentials line: everything before
the first `':'` (the first component of `line.split(":")`). -/
def usernameOfLine (l : String) : String :=
  String.mk (l.data.takeWhile (fun c => !(decide (c = ':'))))

/-- How many stored lines carry username `u`. -/
def countUser (u : String) (file : List String) : Nat :=
  (file.filter (fun l => decide (usernameOfLine l = u))).length

/-! Helper lemmas shared by the claim theorems below. -/

/-- Once `auth_attempts` has reached 3 the loop guard fails: the final
`AUTH_FAIL` is sent, the socket is closed, and no further event is read. -/
theorem authLoop_guard (events : List AuthEvent) (db : List (String × String))
    {attempts : Nat} (h : 3 ≤ attempts) :
    authLoop events db attempts = ⟨.rejected, db, [finalAuthFail], events, true⟩ := by
  cases events <;> simp [authLoop, h]

/-- No per-attempt failure response coincides with the terminal
`AUTH_FAIL` frame: the three in-loop reasons all differ from
"Authentication failed after multiple attempts". -/
theorem authStepFrame_cont_ne_final {db : List (String × String)} {s : String}
    {inc : Bool} {m : Message} (h : authStepFrame db s = .cont inc m) :
    m ≠ finalAuthFail := by
  simp only [authStepFrame] at h
  split at h
  · cases h; decide
  · split at h
    · cases h; decide
    · split at h
      · split at h
        · cases h; decide
        · cases h
      · split at h
        · cases h
        · cases h; decide

/-- Unfolding `authLoop` on a frame that fails the attempt. -/
theorem authLoop_frame_cont (rest : List AuthEvent) (db : List (String × String))
    (s : String) {attempts : Nat} {inc : Bool} {resp : Message}
    (h : attempts < 3) (hs : authStepFrame db s = .cont inc resp) :
    authLoop (.frame s :: rest) db attempts =
      { authLoop rest db (if inc then attempts + 1 else attempts) with
        sent := resp ::
          (authLoop rest db (if inc then attempts + 1 else attempts)).sent } := by
  simp [authLoop, hs, Nat.not_le.mpr h]

/-- Unfolding `authLoop` on a frame that authenticates. -/
theorem authLoop_frame_success (rest : List AuthEvent) (db : List (String × String))
    (s : String) {attempts : Nat} {u : String} {db' : List (String × String)}
    (h : attempts < 3) (hs : authStepFrame db s = .success u db') :
    authLoop (.frame s :: rest) db attempts =
      ⟨.authenticated u, db', [welcomeMsg u], rest, false⟩ := by
  simp [authLoop, hs, Nat.not_le.mpr h]

/-- A login frame (no registration flag) whose credentials verify against
`user_db` authenticates and leaves the database unchanged. -/
theorem authStepFrame_login_success {db : List (String × String)} {f u pw : String}
    (hreg : hasSubstr regFlag f.data = false)
    (hp : parse_message f = some ⟨"AUTH", u, pw⟩)
    (hdb : alookup db u = some pw) :
    authStepFrame db f = .success u db := by
  simp [authStepFrame, hreg, hp, hdb]

/-- Characterization of the TCP fan-out loop: one send attempt, carrying
the once-encoded payload and its own success flag, for every registered
handle other than the excluded one, in registry order. -/
theorem sendAll_eq (clients : List (Nat × ClientData)) (payload : String)
    (exclude : Option Nat) (canSend : Nat → Bool) :
    sendAll clients payload exclude canSend =
      (clients.filter (fun p => !(decide (some p.1 = exclude)))).map
        (fun p => (⟨p.1, payload, canSend p.1⟩ : SendAttempt)) := by
  induction clients with
  | nil => simp [sendAll]
  | cons c rest ih =>
    obtain ⟨h, d⟩ := c
    simp only [sendAll, List.filter_cons]
    split
    · simp_all
    · simp_all

/-- The byte list of a concatenation of strings. -/
theorem string_data_append (a b : String) : (a ++ b).data = a.data ++ b.data := by
  cases a; cases b; rfl

/-- Taking characters up to the first `':'` of `u ++ ':' :: p` recovers
`u` when `u` itself is colon-free. -/
theorem takeWhile_append_colon (u p : List Char) (h : ':' ∉ u) :
    (u ++ ':' :: p).takeWhile (fun c => !(decide (c = ':'))) = u := by
  induction u with
  | nil => simp [List.takeWhile]
  | cons c cs ih =>
    simp only [List.mem_cons, not_or] at h
    simp [List.takeWhile_cons, Ne.symm h.1, ih h.2]

/-! Claim theorems. -/

/-- C1: the codec is claimed to round-trip every message whose content
contains zero, one, or many colons.  It does not: for the message
`(CHAT, alice, "hi:there")` decoding the encoded wire form returns
content `"hi"` — `split(':', 3)` produces a fourth part that
`parse_message` silently drops — while colon-free content does round
trip. -/
theorem C1_codec_drops_colon_content :
    parse_message (serialize_message ⟨"CHAT", "alice", "hi:there"⟩) =
      some ⟨"CHAT", "alice", "hi"⟩ ∧
    parse_message (serialize_message ⟨"CHAT", "alice", "hi:there"⟩) ≠
      some ⟨"CHAT", "alice", "hi:there"⟩ ∧
    parse_message (serialize_message ⟨"CHAT", "alice", "hello"⟩) =
      some ⟨"CHAT", "alice", "hello"⟩ := by decide

/-- C2 counterexample: with a live session for `alice` already in the
registry (handle 1), a second connection (handle 2) logging in as
`alice` with the correct password is authenticated, two registry
entries for `alice` coexist, and no `AUTH_FAIL` of any kind — in
particular no "already connected" — is sent. -/
theorem C2_duplicate_username_auth_succeeds :
    (handle_tcp_auth ⟨[(1, ⟨"alice", 7, 100⟩)], [], [("alice", "pw1")], 0⟩ 2 8 200
        [.frame "AUTH:alice:pw1"] (fun _ => true)).2.1.outcome =
      .authenticated "alice" ∧
    ((handle_tcp_auth ⟨[(1, ⟨"alice", 7, 100⟩)], [], [("alice", "pw1")], 0⟩ 2 8 200
        [.frame "AUTH:alice:pw1"] (fun _ => true)).1.tcp_clients.filter
      (fun p => decide (p.2.username = "alice"))).length = 2 ∧
    ((handle_tcp_auth ⟨[(1, ⟨"alice", 7, 100⟩)], [], [("alice", "pw1")], 0⟩ 2 8 200
        [.frame "AUTH:alice:pw1"] (fun _ => true)).2.1.sent.all
      (fun m => !(decide (m.type = "AUTH_FAIL")))) = true := by decide

/-- C2 as amended: authentication never consults the session registry.
A login frame with valid credentials is authenticated — whatever
`tcp_clients` contains, and in particular when the username already has
a live session — receives only the `AUTH_SUCCESS` welcome, and is
inserted into the registry as an additional session keyed by its own
handle. -/
theorem C2_auth_ignores_session_registry (st : ServerState)
    (handle address now : Nat) (canSend : Nat → Bool) (f u pw : String)
    (hreg : hasSubstr regFlag f.data = false)
    (hp : parse_message f = some ⟨"AUTH", u, pw⟩)
    (hdb : alookup st.user_db u = some pw) :
    (handle_tcp_auth st handle address now [.frame f] canSend).2.1 =
      ⟨.authenticated u, st.user_db, [welcomeMsg u], [], false⟩ ∧
    (handle_tcp_auth st handle address now [.frame f] canSend).1.tcp_clients =
      ainsert st.tcp_clients handle ⟨u, address, now⟩ ∧
    (handle_tcp_auth st handle address now [.frame f] canSend).1.user_db =
      st.user_db := by
  have hs := authStepFrame_login_success hreg hp hdb
  rw [handle_tcp_auth, authLoop_frame_success _ _ _ (by omega) hs]
  simp [broadcast_message]

/-- C2 witness: the amended claim evaluated at a concrete state in which
`alice` already holds handle 1 and handle 2 logs in as `alice`. -/
theorem C2_auth_ignores_session_registry_witness :
    (handle_tcp_auth ⟨[(1, ⟨"alice", 7, 100⟩)], [], [("alice", "pw1")], 0⟩ 2 8 200
        [.frame "AUTH:alice:pw1"] (fun _ => true)).2.1 =
      ⟨.authenticated "alice", [("alice", "pw1")], [welcomeMsg "alice"], [], false⟩ ∧
    (handle_tcp_auth ⟨[(1, ⟨"alice", 7, 100⟩)], [], [("alice", "pw1")], 0⟩ 2 8 200
        [.frame "AUTH:alice:pw1"] (fun _ => true)).1.tcp_clients =
      ainsert [(1, ⟨"alice", 7, 100⟩)] 2 ⟨"alice", 8, 200⟩ ∧
    (handle_tcp_auth ⟨[(1, ⟨"alice", 7, 100⟩)], [], [("alice", "pw1")], 0⟩ 2 8 200
        [.frame "AUTH:alice:pw1"] (fun _ => true)).1.user_db = [("alice", "pw1")] :=
  C2_auth_ignores_session_registry ⟨[(1, ⟨"alice", 7, 100⟩)], [], [("alice", "pw1")], 0⟩
    2 8 200 (fun _ => true) "AUTH:alice:pw1" "alice" "pw1"
    (by decide) (by decide) (by decide)

/-- C3: three consecutive failed (counted) authentication attempts on one
connection drive the loop to the terminal state: each attempt is
answered by its own `AUTH_FAIL`, then exactly one terminal `AUTH_FAIL`
is sent, the connection is closed (`closed = true`), and the remaining
events — the would-be fourth attempt — are never consumed. -/
theorem C3_three_failed_attempts_terminal (db : List (String × String))
    (e1 e2 e3 : String) (rest : List AuthEvent) (m1 m2 m3 : Message)
    (h1 : authStepFrame db e1 = .cont true m1)
    (h2 : authStepFrame db e2 = .cont true m2)
    (h3 : authStepFrame db e3 = .cont true m3) :
    authLoop (.frame e1 :: .frame e2 :: .frame e3 :: rest) db 0 =
      ⟨.rejected, db, [m1, m2, m3, finalAuthFail], rest, true⟩ ∧
    [m1, m2, m3, finalAuthFail].count finalAuthFail = 1 := by
  have n1 := authStepFrame_cont_ne_final h1
  have n2 := authStepFrame_cont_ne_final h2
  have n3 := authStepFrame_cont_ne_final h3
  constructor
  · rw [authLoop_frame_cont _ _ _ (by omega) h1]
    rw [authLoop_frame_cont _ _ _ (by simp) h2]
    rw [authLoop_frame_cont _ _ _ (by simp) h3]
    rw [authLoop_guard _ _ (by simp)]
  · simp [List.count_cons, n1, n2, n3]

/-- C3 witness: three wrong-password logins for `alice` followed by a
correct one that is never read. -/
theorem C3_three_failed_attempts_terminal_witness :
    authLoop [.frame "AUTH:alice:wrong", .frame "AUTH:alice:wrong",
        .frame "AUTH:alice:wrong", .frame "AUTH:alice:pw1"] [("alice", "pw1")] 0 =
      ⟨.rejected, [("alice", "pw1")],
        [authFail "Invalid credentials", authFail "Invalid credentials",
         authFail "Invalid credentials", finalAuthFail],
        [.frame "AUTH:alice:pw1"], true⟩ ∧
    [authFail "Invalid credentials", authFail "Invalid credentials",
     authFail "Invalid credentials", finalAuthFail].count finalAuthFail = 1 :=
  C3_three_failed_attempts_terminal [("alice", "pw1")] "AUTH:alice:wrong"
    "AUTH:alice:wrong" "AUTH:alice:wrong" [.frame "AUTH:alice:pw1"]
    (authFail "Invalid credentials") (authFail "Invalid credentials")
    (authFail "Invalid credentials") (by decide) (by decide) (by decide)

/-- C4: a registration attempt for an existing username sends the
specific `AUTH_FAIL "Username already exists"` but does not increment
the connection's attempt counter, so repeated registration failures
never reach the 3-attempt limit: four such frames in a row are all
processed, four `AUTH_FAIL`s are sent, and the loop is still waiting
for more input instead of having terminated. -/
theorem C4_registration_failure_uncounted :
    authStepFrame [("alice", "pw1")] "AUTH:alice:pw2:registration=true" =
      .cont false (authFail "Username already exists") ∧
    authLoop (List.replicate 4 (.frame "AUTH:alice:pw2:registration=true"))
        [("alice", "pw1")] 0 =
      ⟨.blocked, [("alice", "pw1")],
        List.replicate 4 (authFail "Username already exists"), [], false⟩ := by decide

/-- C5 counterexample: on a zero-length read during the authentication
phase the server does send a further message — the terminal
`AUTH_FAIL` "Authentication failed after multiple attempts" — before
closing, contradicting the claimed silent abort. -/
theorem C5_zero_length_read_sends_auth_fail :
    authLoop [.empty] [("alice", "pw1")] 0 =
      ⟨.rejected, [("alice", "pw1")], [finalAuthFail], [], true⟩ ∧
    (authLoop [.empty] [("alice", "pw1")] 0).sent ≠ [] := by decide

/-- C5 as amended: an expiry of the 30-second receive timeout aborts the
connection with nothing further sent, while a zero-length read makes
the server send one terminal `AUTH_FAIL` and then close. -/
theorem C5_auth_abort_responses (db : List (String × String))
    (rest : List AuthEvent) (attempts : Nat) (h : attempts < 3) :
    authLoop (.timeout :: rest) db attempts = ⟨.aborted, db, [], rest, true⟩ ∧
    authLoop (.empty :: rest) db attempts =
      ⟨.rejected, db, [finalAuthFail], rest, true⟩ := by
  constructor <;> simp [authLoop, Nat.not_le.mpr h]

/-- C5 witness: the amended claim at an empty database with no pending
events and zero prior attempts. -/
theorem C5_auth_abort_responses_witness :
    authLoop [.timeout] [] 0 = ⟨.aborted, [], [], [], true⟩ ∧
    authLoop [.empty] [] 0 = ⟨.rejected, [], [finalAuthFail], [], true⟩ :=
  C5_auth_abort_responses [] [] 0 (by decide)

/-- C6: a TCP broadcast attempts one send of the once-encoded message to
every currently-registered handle except the excluded one, in registry
order; each attempt carries its own success flag (supplied by the
environment), so a failure on one session leaves the attempts on every
other session in place, and the excluded handle never appears among
the attempts. -/
theorem C6_broadcast_exclusion_isolation (st : ServerState) (m : Message)
    (exclude : Option Nat) (canSend : Nat → Bool) :
    (broadcast_message st m exclude canSend).2 =
      (st.tcp_clients.filter (fun p => !(decide (some p.1 = exclude)))).map
        (fun p => (⟨p.1, serialize_message m, canSend p.1⟩ : SendAttempt)) ∧
    ((broadcast_message st m exclude canSend).2.all
        (fun a => !(decide (some a.handle = exclude)))) = true := by
  constructor
  · simp [broadcast_message, sendAll_eq]
  · simp only [broadcast_message, sendAll_eq, List.all_eq_true]
    intro a ha
    simp only [List.mem_map, List.mem_filter] at ha
    obtain ⟨p, ⟨_, hp⟩, rfl⟩ := ha
    simpa using hp

/-- C7 counterexample: the legacy `Server.broadcast_message` does mutate
the registry mid-iteration — with room `[a, b, c]`, sender `a`, and
`b`'s socket broken, the broadcast removes `b` from the room list. -/
theorem C7_legacy_broadcast_removes_client :
    legacyBroadcast "a" (fun h => !(decide (h = 2)))
        [⟨"a", 1, "r"⟩, ⟨"b", 2, "r"⟩, ⟨"c", 3, "r"⟩] 0 =
      [⟨"a", 1, "r"⟩, ⟨"c", 3, "r"⟩] ∧
    legacyBroadcast "a" (fun h => !(decide (h = 2)))
        [⟨"a", 1, "r"⟩, ⟨"b", 2, "r"⟩, ⟨"c", 3, "r"⟩] 0 ≠
      [⟨"a", 1, "r"⟩, ⟨"b", 2, "r"⟩, ⟨"c", 3, "r"⟩] := by
  constructor
  · simp [legacyBroadcast, removeFirst]
  · simp [legacyBroadcast, removeFirst]

/-- C7 as amended: `ChatServer.broadcast_message` never inserts, removes,
or modifies any session-registry entry — `tcp_clients`,
`udp_client_addresses`, and `user_db` are unchanged for every state,
message, exclusion, and pattern of send failures (only the
`bytes_sent` counter moves); the legacy `Server.broadcast_message`, by
contrast, removes a room member whose send fails. -/
theorem C7_broadcast_preserves_registry (st : ServerState) (m : Message)
    (exclude : Option Nat) (canSend : Nat → Bool) :
    (broadcast_message st m exclude canSend).1.tcp_clients = st.tcp_clients ∧
    (broadcast_message st m exclude canSend).1.udp_client_addresses =
      st.udp_client_addresses ∧
    (broadcast_message st m exclude canSend).1.user_db = st.user_db := by
  simp [broadcast_message]

/-- C8: the code contradicts the claimed eviction behaviour.  With
`alice` (handle 1) stale at 100 s and her ping send failing, the sweep
marks her for eviction, removes her and closes the handle, and then
calls `broadcast_message` for the LEAVE(timeout) notification while
still inside `with self.lock:` — `broadcast_message` re-acquires that
same non-reentrant lock, so the sweep never completes (`none`) and the
LEAVE broadcast is never emitted.  When the ping send succeeds, the
sweep completes with the registry unchanged and no eviction, as
claimed. -/
theorem C8_eviction_deadlock_no_leave :
    heartbeat_check ⟨[(1, ⟨"alice", 7, 0⟩), (2, ⟨"bob", 8, 100⟩)], [],
        [("alice", "pw1")], 0⟩ 100 (fun h => !(decide (h = 1))) =
      ([⟨1, "HEARTBEAT:SERVER:PING", false⟩], none) ∧
    heartbeat_check ⟨[(1, ⟨"alice", 7, 0⟩), (2, ⟨"bob", 8, 100⟩)], [],
        [("alice", "pw1")], 0⟩ 100 (fun _ => true) =
      ([⟨1, "HEARTBEAT:SERVER:PING", true⟩],
       some (⟨[(1, ⟨"alice", 7, 0⟩), (2, ⟨"bob", 8, 100⟩)], [],
         [("alice", "pw1")], 0⟩, [])) := by decide

/-- C9 counterexample: creating credentials for a username that already
exists returns `true` — not the claimed `false` — and duplicates the
entry: the store ends with two lines for `alice`. -/
theorem C9_create_duplicates_existing_username :
    save_credentials ["alice:pw"] "alice" "pw2" = (true, ["alice:pw", "alice:pw2"]) ∧
    (save_credentials ["alice:pw"] "alice" "pw2").1 ≠ false ∧
    countUser "alice" (save_credentials ["alice:pw"] "alice" "pw2").2 = 2 := by decide

/-- C9 as amended: `save_credentials` performs no existence check — for
every store and every (colon-free) username it returns `true` and
appends the new `username:password` line, so the number of stored
lines for that username always grows by one, duplicating any existing
entry rather than rejecting or overwriting it. -/
theorem C9_create_appends_unconditionally (file : List String) (u p : String)
    (h : ':' ∉ u.data) :
    save_credentials file u p = (true, file ++ [u ++ ":" ++ p]) ∧
    usernameOfLine (u ++ ":" ++ p) = u ∧
    countUser u (save_credentials file u p).2 = countUser u file + 1 := by
  have hdata : (u ++ ":" ++ p).data = u.data ++ ':' :: p.data := by
    rw [string_data_append, string_data_append]
    simp [String.data]
  have huser : usernameOfLine (u ++ ":" ++ p) = u := by
    rw [usernameOfLine, hdata, takeWhile_append_colon _ _ h]
  refine ⟨rfl, huser, ?_⟩
  simp [countUser, save_credentials, List.filter_append, huser]

/-- C9 witness: the amended claim at a store holding only `bob`. -/
theorem C9_create_appends_unconditionally_witness :
    save_credentials ["bob:x"] "alice" "pw" = (true, ["bob:x", "alice" ++ ":" ++ "pw"]) ∧
    usernameOfLine ("alice" ++ ":" ++ "pw") = "alice" ∧
    countUser "alice" (save_credentials ["bob:x"] "alice" "pw").2 =
      countUser "alice" ["bob:x"] + 1 :=
  C9_create_appends_unconditionally ["bob:x"] "alice" "pw" (by decide)

/-- C10: every well-formed TYPING datagram — with no hypothesis that its
named sender has an authenticated TCP session or any stored
credential — makes the server insert-or-overwrite the sender's
username→UDP-address mapping and fan the indicator out to every other
registered UDP address; `tcp_clients` and `user_db` play no role in
the result. -/
theorem C10_udp_typing_unauthenticated (st : ServerState) (data : String)
    (addr : Nat) (canSendUdp : Nat → Bool) (u c : String)
    (hp : parse_message data = some ⟨"TYPING", u, c⟩) :
    handle_udp_datagram st data addr canSendUdp =
      ({ st with udp_client_addresses := ainsert st.udp_client_addresses u addr },
       broadcast_udp_message (ainsert st.udp_client_addresses u addr)
         (serialize_message ⟨"TYPING", u, c⟩) (some addr) canSendUdp) := by
  simp [handle_udp_datagram, hp]

/-- C10 witness: a typing datagram from `mallory`, who has no TCP session
and no credentials, registers her UDP address and is fanned out to
`bob`'s registered address. -/
theorem C10_udp_typing_unauthenticated_witness :
    handle_udp_datagram ⟨[], [("bob", 9)], [], 0⟩ "TYPING:mallory:" 5 (fun _ => true) =
      ({ tcp_clients := [], udp_client_addresses := ainsert [("bob", 9)] "mallory" 5,
         user_db := [], bytes_sent := 0 },
       broadcast_udp_message (ainsert [("bob", 9)] "mallory" 5)
         (serialize_message ⟨"TYPING", "mallory", ""⟩) (some 5) (fun _ => true)) :=
  C10_udp_typing_unauthenticated ⟨[], [("bob", 9)], [], 0⟩ "TYPING:mallory:" 5
    (fun _ => true) "mallory" "" (by decide)

end ChatRoom
